import Mathlib

/-!
Verification of the score-predic feature-engineering pipeline.

The definitions below are a shallow embedding of the Python sources:
- `laliga_feature_builder.py` (class `LaLigaFeatureBuilder`): trailing-window
  form, head-to-head records, league positions, rest days, momentum, and the
  advanced feature assembler;
- `laliga_dataset_builder.py` (class `LaLigaDatasetBuilder`): a near-duplicate
  pipeline with its own form, head-to-head, league-position and assembler code;
- `efficient_data_storage.py` (class `EfficientDataStorage`): the SQLite-backed
  match store with an `INSERT OR REPLACE` append keyed on
  `UNIQUE(season, matchday, home_team, away_team)`.

Conventions: Python ints are modeled as `Int`, Python floats produced by `/`
as `Rat`, team names as `Int` identifiers, and pandas timestamps as a
calendar `Date` compared through its proleptic Gregorian ordinal.
`df.sort_values('date', ascending=False)` is modeled as a deterministic stable
descending insertion sort (pandas leaves the relative order of equal dates
unspecified; no theorem below depends on the order of equal-date rows).
-/

/-- Calendar date, day granularity, as carried by the pandas `date` column. -/
structure Date where
  year : Int
  month : Int
  day : Int
deriving DecidableEq, Repr

/-- Leap-year test of the proleptic Gregorian calendar. -/
def Date.isLeap (y : Int) : Bool :=
  (y % 4 == 0 && y % 100 != 0) || (y % 400 == 0)

/-- Days in the months strictly before month `m` of a non-leap year. -/
def Date.daysBeforeMonth (m : Int) : Int :=
  if m ≤ 1 then 0 else if m = 2 then 31 else if m = 3 then 59
  else if m = 4 then 90 else if m = 5 then 120 else if m = 6 then 151
  else if m = 7 then 181 else if m = 8 then 212 else if m = 9 then 243
  else if m = 10 then 273 else if m = 11 then 304 else 334

/-- Proleptic Gregorian day number of a date. Timestamp comparison and
subtraction on the pandas `date` column are comparison and subtraction of
this ordinal. -/
def Date.toOrdinal (dt : Date) : Int :=
  let y := dt.year - 1
  365 * y + y / 4 - y / 100 + y / 400
    + Date.daysBeforeMonth dt.month
    + (if 2 < dt.month && Date.isLeap dt.year then 1 else 0)
    + dt.day

/-- Strict timestamp comparison `a < b` on the `date` column. -/
def Date.before (a b : Date) : Bool := decide (a.toOrdinal < b.toOrdinal)

/-- Timestamp comparison `a <= b` on the `date` column. -/
def Date.beforeEq (a b : Date) : Bool := decide (a.toOrdinal ≤ b.toOrdinal)

/-- One row of the match DataFrame handed to the feature builders: columns
`match_id, season, matchday, date, home_team, away_team, home_goals,
away_goals` (team names are modeled as integer identifiers). -/
structure Match where
  match_id : Int
  season : Int
  matchday : Int
  date : Date
  home_team : Int
  away_team : Int
  home_goals : Int
  away_goals : Int
deriving DecidableEq, Repr

/-- The `result` column produced by `LaLigaDatasetBuilder._get_match_result`. -/
inductive MatchResult where
  | HomeWin
  | AwayWin
  | Draw
deriving DecidableEq, Repr

/-- `_get_match_result`: match result from the home-team perspective. -/
def matchResult (m : Match) : MatchResult :=
  if m.away_goals < m.home_goals then .HomeWin
  else if m.home_goals < m.away_goals then .AwayWin
  else .Draw

/-- Insert `x` into a descending-sorted list, after every element strictly
greater under `lt` and before every other element. -/
def insertDescBy (lt : α → α → Bool) (x : α) : List α → List α
  | [] => [x]
  | y :: ys => if lt x y then y :: insertDescBy lt x ys else x :: y :: ys

/-- Stable descending insertion sort: models
`sort_values(..., ascending=False)` and `list.sort(key=..., reverse=True)`.
Elements with equal keys keep their original relative order. -/
def sortDescBy (lt : α → α → Bool) : List α → List α
  | [] => []
  | x :: xs => insertDescBy lt x (sortDescBy lt xs)

/-- Sort key comparison for sorting matches by date. -/
def matchDateLt (a b : Match) : Bool := a.date.before b.date

/-- Row predicate `(df['home_team'] == team) | (df['away_team'] == team)`. -/
def playedBy (team : Int) (m : Match) : Bool :=
  decide (m.home_team = team) || decide (m.away_team = team)

/-- The selection shared by form, rest-day and momentum queries: matches of
`team` strictly before `date`, most recent first, truncated to `n`
(`.sort_values('date', ascending=False).head(n)`). -/
def teamMatchesBefore (df : List Match) (team : Int) (d : Date) (n : Nat) :
    List Match :=
  (sortDescBy matchDateLt
    (df.filter (fun m => playedBy team m && m.date.before d))).take n

/-- Accumulator of the form loop in `calculate_team_form`. -/
structure FormCounters where
  points : Int
  goals_scored : Int
  goals_conceded : Int
  wins : Int
  draws : Int
  losses : Int
deriving DecidableEq, Repr

/-- One iteration of the form loop: credit the match `m` to `team`. -/
def formStep (team : Int) (acc : FormCounters) (m : Match) : FormCounters :=
  if m.home_team = team then
    -- team played at home
    if m.away_goals < m.home_goals then
      { acc with
        points := acc.points + 3
        wins := acc.wins + 1
        goals_scored := acc.goals_scored + m.home_goals
        goals_conceded := acc.goals_conceded + m.away_goals }
    else if m.home_goals = m.away_goals then
      { acc with
        points := acc.points + 1
        draws := acc.draws + 1
        goals_scored := acc.goals_scored + m.home_goals
        goals_conceded := acc.goals_conceded + m.away_goals }
    else
      { acc with
        losses := acc.losses + 1
        goals_scored := acc.goals_scored + m.home_goals
        goals_conceded := acc.goals_conceded + m.away_goals }
  else
    -- team played away
    if m.home_goals < m.away_goals then
      { acc with
        points := acc.points + 3
        wins := acc.wins + 1
        goals_scored := acc.goals_scored + m.away_goals
        goals_conceded := acc.goals_conceded + m.home_goals }
    else if m.away_goals = m.home_goals then
      { acc with
        points := acc.points + 1
        draws := acc.draws + 1
        goals_scored := acc.goals_scored + m.away_goals
        goals_conceded := acc.goals_conceded + m.home_goals }
    else
      { acc with
        losses := acc.losses + 1
        goals_scored := acc.goals_scored + m.away_goals
        goals_conceded := acc.goals_conceded + m.home_goals }

/-- The whole form loop over a selected list of matches. -/
def formCounters (team : Int) (ms : List Match) : FormCounters :=
  ms.foldl (formStep team) ⟨0, 0, 0, 0, 0, 0⟩

/-- Result dictionary of `LaLigaFeatureBuilder.calculate_team_form`. -/
structure TeamForm where
  points : Int
  goals_scored : Int
  goals_conceded : Int
  goal_difference : Int
  wins : Int
  draws : Int
  losses : Int
  matches_played : Int
  points_per_match : Rat
  goals_per_match : Rat
  goals_conceded_per_match : Rat
deriving DecidableEq, Repr

/-- `LaLigaFeatureBuilder.calculate_team_form(df, team, date, n)`. -/
def calculate_team_form (df : List Match) (team : Int) (d : Date) (n : Nat) :
    TeamForm :=
  let tm := teamMatchesBefore df team d n
  let c := formCounters team tm
  let len : Int := tm.length
  { points := c.points
    goals_scored := c.goals_scored
    goals_conceded := c.goals_conceded
    goal_difference := c.goals_scored - c.goals_conceded
    wins := c.wins
    draws := c.draws
    losses := c.losses
    matches_played := len
    points_per_match := (c.points : Rat) / ((max len 1 : Int) : Rat)
    goals_per_match := (c.goals_scored : Rat) / ((max len 1 : Int) : Rat)
    goals_conceded_per_match :=
      (c.goals_conceded : Rat) / ((max len 1 : Int) : Rat) }

/-- Row predicate of `calculate_head_to_head`: the unordered pair of the
match is `{team1, team2}` and the match is strictly before `date`. -/
def h2hPred (team1 team2 : Int) (d : Date) (m : Match) : Bool :=
  ((decide (m.home_team = team1) && decide (m.away_team = team2)) ||
   (decide (m.home_team = team2) && decide (m.away_team = team1))) &&
  m.date.before d

/-- The head-to-head selection
`.sort_values('date', ascending=False).head(n)`. -/
def h2hMatches (df : List Match) (team1 team2 : Int) (d : Date) (n : Nat) :
    List Match :=
  (sortDescBy matchDateLt (df.filter (h2hPred team1 team2 d))).take n

/-- Accumulator of the loop in `calculate_head_to_head`. -/
structure H2HCounters where
  team1_wins : Int
  team2_wins : Int
  draws : Int
  team1_goals : Int
  team2_goals : Int
deriving DecidableEq, Repr

/-- One iteration of the head-to-head loop, normalized to `team1`. -/
def h2hStep (team1 : Int) (acc : H2HCounters) (m : Match) : H2HCounters :=
  if m.home_team = team1 then
    if m.away_goals < m.home_goals then
      { acc with
        team1_wins := acc.team1_wins + 1
        team1_goals := acc.team1_goals + m.home_goals
        team2_goals := acc.team2_goals + m.away_goals }
    else if m.home_goals = m.away_goals then
      { acc with
        draws := acc.draws + 1
        team1_goals := acc.team1_goals + m.home_goals
        team2_goals := acc.team2_goals + m.away_goals }
    else
      { acc with
        team2_wins := acc.team2_wins + 1
        team1_goals := acc.team1_goals + m.home_goals
        team2_goals := acc.team2_goals + m.away_goals }
  else
    if m.home_goals < m.away_goals then
      { acc with
        team1_wins := acc.team1_wins + 1
        team1_goals := acc.team1_goals + m.away_goals
        team2_goals := acc.team2_goals + m.home_goals }
    else if m.away_goals = m.home_goals then
      { acc with
        draws := acc.draws + 1
        team1_goals := acc.team1_goals + m.away_goals
        team2_goals := acc.team2_goals + m.home_goals }
    else
      { acc with
        team2_wins := acc.team2_wins + 1
        team1_goals := acc.team1_goals + m.away_goals
        team2_goals := acc.team2_goals + m.home_goals }

/-- The whole head-to-head loop over a selected list of matches. -/
def h2hCounters (team1 : Int) (ms : List Match) : H2HCounters :=
  ms.foldl (h2hStep team1) ⟨0, 0, 0, 0, 0⟩

/-- Result dictionary of `LaLigaFeatureBuilder.calculate_head_to_head`. -/
structure HeadToHead where
  team1_wins : Int
  team2_wins : Int
  draws : Int
  team1_goals : Int
  team2_goals : Int
  matches_played : Int
  team1_win_rate : Rat
  team2_win_rate : Rat
  draw_rate : Rat
  goals_per_match : Rat
deriving DecidableEq, Repr

/-- `LaLigaFeatureBuilder.calculate_head_to_head(df, team1, team2, date, n)`. -/
def calculate_head_to_head (df : List Match) (team1 team2 : Int) (d : Date)
    (n : Nat) : HeadToHead :=
  let hm := h2hMatches df team1 team2 d n
  let c := h2hCounters team1 hm
  let total : Int := hm.length
  { team1_wins := c.team1_wins
    team2_wins := c.team2_wins
    draws := c.draws
    team1_goals := c.team1_goals
    team2_goals := c.team2_goals
    matches_played := total
    team1_win_rate := (c.team1_wins : Rat) / ((max total 1 : Int) : Rat)
    team2_win_rate := (c.team2_wins : Rat) / ((max total 1 : Int) : Rat)
    draw_rate := (c.draws : Rat) / ((max total 1 : Int) : Rat)
    goals_per_match :=
      ((c.team1_goals + c.team2_goals : Int) : Rat) /
        ((max total 1 : Int) : Rat) }

/-- `calculate_rest_days(df, team, date)`: days since the most recent match
of `team` strictly before `date`; the code of `laliga_feature_builder.py`
and `laliga_dataset_builder.py` is identical. -/
def calculate_rest_days (df : List Match) (team : Int) (d : Date) : Int :=
  match (sortDescBy matchDateLt
      (df.filter (fun m => playedBy team m && m.date.before d))).head? with
  | some m => d.toOrdinal - m.date.toOrdinal
  | none => 0

/-- Result dictionary of `LaLigaFeatureBuilder.calculate_momentum`; on an
empty selection the Python dict has no `momentum_per_match` key, modeled
as `none`. -/
structure Momentum where
  momentum_score : Int
  recent_wins : Int
  recent_form : String
  momentum_per_match : Option Rat
deriving DecidableEq, Repr

/-- One iteration of the momentum loop: `(score increment, win increment)`. -/
def momentumStep (team : Int) (m : Match) : Int × Int :=
  if m.home_team = team then
    if m.away_goals < m.home_goals then (3, 1)
    else if m.home_goals = m.away_goals then (1, 0)
    else (0, 0)
  else
    if m.home_goals < m.away_goals then (3, 1)
    else if m.away_goals = m.home_goals then (1, 0)
    else (0, 0)

/-- `LaLigaFeatureBuilder.calculate_momentum(df, team, date, n)`. -/
def calculate_momentum (df : List Match) (team : Int) (d : Date) (n : Nat) :
    Momentum :=
  let recent := teamMatchesBefore df team d n
  if recent.isEmpty then
    { momentum_score := 0
      recent_wins := 0
      recent_form := "Unknown"
      momentum_per_match := none }
  else
    let p := recent.foldl
      (fun acc m =>
        let s := momentumStep team m
        (acc.1 + s.1, acc.2 + s.2)) ((0 : Int), (0 : Int))
    let form :=
      if 7 ≤ p.1 then "Excellent"
      else if 5 ≤ p.1 then "Good"
      else if 3 ≤ p.1 then "Average"
      else "Poor"
    { momentum_score := p.1
      recent_wins := p.2
      recent_form := form
      momentum_per_match := some ((p.1 : Rat) / ((recent.length : Int) : Rat)) }

/-- One entry of the `league_table` list built by
`calculate_league_position`: team name with its sort keys, all taken from
`calculate_team_form(df, team_name, date, n=100)` (the dictionary built by
`laliga_dataset_builder.py` omits `matches_played` but computes it too). -/
structure TableRow where
  team : Int
  points : Int
  goal_difference : Int
  goals_scored : Int
  matches_played : Int
deriving DecidableEq, Repr

/-- Strict comparison of the Python sort key tuple
`(points, goal_difference, goals_scored)`. -/
def rowKeyLt (a b : TableRow) : Bool :=
  decide (a.points < b.points ∨
    (a.points = b.points ∧
      (a.goal_difference < b.goal_difference ∨
        (a.goal_difference = b.goal_difference ∧
          a.goals_scored < b.goals_scored))))

/-- The lookup loop `for i, team_data in enumerate(league_table): if
team_data['team'] == team: return ...`; yields the 1-indexed position of the
first row of `team` together with that row. -/
def findTeamPos (team : Int) : List TableRow → Option (Int × TableRow)
  | [] => none
  | r :: rs =>
    if r.team = team then some (1, r)
    else (findTeamPos team rs).map (fun p => (p.1 + 1, p.2))

/-- First-appearance de-duplication. Python collects the team names into a
`set`, whose iteration order is unspecified (for strings it varies across
interpreter runs); the embedding fixes the first-appearance order as its
canonical enumeration, and `league_position_core` below exposes the
enumeration as an explicit parameter. -/
def appearanceOrder (l : List Int) : List Int :=
  l.foldl (fun acc x => if x ∈ acc then acc else acc ++ [x]) []

/-- The team enumeration of `calculate_league_position`:
`set(sm['home_team'].unique()) | set(sm['away_team'].unique())`. -/
def seasonTeams (sm : List Match) : List Int :=
  appearanceOrder (sm.map Match.home_team ++ sm.map Match.away_team)

/-- One row of `league_table`, from
`calculate_team_form(df, team_name, date, n=100)` over the full DataFrame. -/
def mkTableRow (df : List Match) (d : Date) (t : Int) : TableRow :=
  let f := calculate_team_form df t d 100
  { team := t
    points := f.points
    goal_difference := f.goal_difference
    goals_scored := f.goals_scored
    matches_played := f.matches_played }

/-- `league_table` after
`league_table.sort(key=lambda x: (points, gd, gs), reverse=True)`, built
from an explicit team enumeration `ts`. -/
def league_table (df : List Match) (d : Date) (ts : List Int) :
    List TableRow :=
  sortDescBy rowKeyLt (ts.map (mkTableRow df d))

/-- Result dictionary of `LaLigaFeatureBuilder.calculate_league_position`. -/
structure LeaguePos where
  position : Int
  points : Int
  goal_difference : Int
  matches_played : Int
deriving DecidableEq, Repr

/-- Table construction, ranking and lookup shared by both league-position
variants, with the team enumeration `ts` explicit. -/
def league_position_core (df : List Match) (d : Date) (ts : List Int)
    (team : Int) : LeaguePos :=
  match findTeamPos team (league_table df d ts) with
  | some (i, r) =>
    { position := i
      points := r.points
      goal_difference := r.goal_difference
      matches_played := r.matches_played }
  | none => { position := 20, points := 0, goal_difference := 0,
              matches_played := 0 }

/-- Season inference of `laliga_feature_builder.py`:
`date.year if date.month >= 8 else date.year - 1`. -/
def season_year (d : Date) : Int :=
  if 8 ≤ d.month then d.year else d.year - 1

/-- The selection
`df[(df['date'] < date) & (df['season'] == season_year)]` of
`LaLigaFeatureBuilder.calculate_league_position`. -/
def season_matches_fb (df : List Match) (d : Date) : List Match :=
  df.filter (fun m => m.date.before d && decide (m.season = season_year d))

/-- `LaLigaFeatureBuilder.calculate_league_position(df, team, date)`. -/
def calculate_league_position (df : List Match) (team : Int) (d : Date) :
    LeaguePos :=
  let sm := season_matches_fb df d
  if sm.isEmpty then
    { position := 20, points := 0, goal_difference := 0, matches_played := 0 }
  else league_position_core df d (seasonTeams sm) team

/-- Season selection of `LaLigaDatasetBuilder.calculate_league_position`:
the `season` value of the last DataFrame row with `date <= date`
(`df[df['date'] <= date]['season'].iloc[-1]`), defaulting to 2014. (When no
row has `date <= date` the Python expression degenerates to a bitmask that
selects nothing; since `date < date` then also selects nothing, returning
2014 gives the same empty selection.) -/
def seasonAt (df : List Match) (d : Date) : Int :=
  match (df.filter (fun m => m.date.beforeEq d)).getLast? with
  | some m => m.season
  | none => 2014

/-- Result dictionary of `LaLigaDatasetBuilder.calculate_league_position`. -/
structure LeaguePosDB where
  position : Int
  points : Int
  goal_difference : Int
deriving DecidableEq, Repr

/-- `LaLigaDatasetBuilder.calculate_league_position(df, team, date)`: same
table construction, but the season is read from the ledger row at `date`
and there is no empty-selection early return. -/
def calculate_league_position_db (df : List Match) (team : Int) (d : Date) :
    LeaguePosDB :=
  let sm := df.filter
    (fun m => m.date.before d && decide (m.season = seasonAt df d))
  match findTeamPos team (league_table df d (seasonTeams sm)) with
  | some (i, r) =>
    { position := i
      points := r.points
      goal_difference := r.goal_difference }
  | none => { position := 20, points := 0, goal_difference := 0 }

/-- Result dictionary of `LaLigaDatasetBuilder.calculate_team_form` (the
same loop as the feature-builder variant, without the per-match ratios). -/
structure TeamFormDB where
  points : Int
  goals_scored : Int
  goals_conceded : Int
  goal_difference : Int
  wins : Int
  draws : Int
  losses : Int
  matches_played : Int
deriving DecidableEq, Repr

/-- `LaLigaDatasetBuilder.calculate_team_form(df, team, date, n)`. -/
def calculate_team_form_db (df : List Match) (team : Int) (d : Date)
    (n : Nat) : TeamFormDB :=
  let tm := teamMatchesBefore df team d n
  let c := formCounters team tm
  { points := c.points
    goals_scored := c.goals_scored
    goals_conceded := c.goals_conceded
    goal_difference := c.goals_scored - c.goals_conceded
    wins := c.wins
    draws := c.draws
    losses := c.losses
    matches_played := tm.length }

/-- The venue argument of `calculate_home_away_form`. -/
inductive Venue where
  | home
  | away
deriving DecidableEq, Repr

/-- Result dictionary of `LaLigaDatasetBuilder.calculate_home_away_form`. -/
structure HomeAwayFormDB where
  points : Int
  goals_scored : Int
  goals_conceded : Int
  matches_played : Int
deriving DecidableEq, Repr

/-- `LaLigaDatasetBuilder.calculate_home_away_form(df, team, date, venue, n)`. -/
def calculate_home_away_form_db (df : List Match) (team : Int) (d : Date)
    (venue : Venue) (n : Nat) : HomeAwayFormDB :=
  let tm := (sortDescBy matchDateLt (df.filter (fun m =>
    (match venue with
     | .home => decide (m.home_team = team)
     | .away => decide (m.away_team = team)) && m.date.before d))).take n
  let c := tm.foldl
    (fun (acc : Int × Int × Int) m =>
      match venue with
      | .home =>
        (acc.1 + (if m.away_goals < m.home_goals then 3
          else if m.home_goals = m.away_goals then 1 else 0),
         acc.2.1 + m.home_goals, acc.2.2 + m.away_goals)
      | .away =>
        (acc.1 + (if m.home_goals < m.away_goals then 3
          else if m.away_goals = m.home_goals then 1 else 0),
         acc.2.1 + m.away_goals, acc.2.2 + m.home_goals))
    (0, 0, 0)
  { points := c.1
    goals_scored := c.2.1
    goals_conceded := c.2.2
    matches_played := tm.length }

/-- Result dictionary of `LaLigaDatasetBuilder.calculate_head_to_head` (the
same loop as the feature-builder variant, without the rates). -/
structure HeadToHeadDB where
  team1_wins : Int
  team2_wins : Int
  draws : Int
  team1_goals : Int
  team2_goals : Int
  matches_played : Int
deriving DecidableEq, Repr

/-- `LaLigaDatasetBuilder.calculate_head_to_head(df, team1, team2, date, n)`. -/
def calculate_head_to_head_db (df : List Match) (team1 team2 : Int) (d : Date)
    (n : Nat) : HeadToHeadDB :=
  let hm := h2hMatches df team1 team2 d n
  let c := h2hCounters team1 hm
  { team1_wins := c.team1_wins
    team2_wins := c.team2_wins
    draws := c.draws
    team1_goals := c.team1_goals
    team2_goals := c.team2_goals
    matches_played := hm.length }

/-- One feature row emitted by `LaLigaDatasetBuilder.build_features`. -/
structure FeatureRow where
  match_id : Int
  date : Date
  season : Int
  matchday : Int
  home_team : Int
  away_team : Int
  result : MatchResult
  home_goals : Int
  away_goals : Int
  home_form_points : Int
  home_form_goals_scored : Int
  home_form_goals_conceded : Int
  home_form_goal_diff : Int
  home_form_wins : Int
  home_form_draws : Int
  home_form_losses : Int
  away_form_points : Int
  away_form_goals_scored : Int
  away_form_goals_conceded : Int
  away_form_goal_diff : Int
  away_form_wins : Int
  away_form_draws : Int
  away_form_losses : Int
  home_home_form_points : Int
  home_home_form_goals_scored : Int
  home_home_form_goals_conceded : Int
  away_away_form_points : Int
  away_away_form_goals_scored : Int
  away_away_form_goals_conceded : Int
  home_position : Int
  away_position : Int
  home_points : Int
  away_points : Int
  position_difference : Int
  points_difference : Int
  h2h_home_wins : Int
  h2h_away_wins : Int
  h2h_draws : Int
  h2h_home_goals : Int
  h2h_away_goals : Int
  home_rest_days : Int
  away_rest_days : Int
  rest_difference : Int
  form_points_difference : Int
  form_goal_diff_difference : Int
  home_advantage : Int

/-- The feature dictionary built for one match in the loop body of
`LaLigaDatasetBuilder.build_features`. -/
def featureRow (df : List Match) (m : Match) : FeatureRow :=
  let d := m.date
  let home_form := calculate_team_form_db df m.home_team d 5
  let away_form := calculate_team_form_db df m.away_team d 5
  let home_home_form := calculate_home_away_form_db df m.home_team d .home 5
  let away_away_form := calculate_home_away_form_db df m.away_team d .away 5
  let h2h := calculate_head_to_head_db df m.home_team m.away_team d 10
  let home_position := calculate_league_position_db df m.home_team d
  let away_position := calculate_league_position_db df m.away_team d
  let home_rest := calculate_rest_days df m.home_team d
  let away_rest := calculate_rest_days df m.away_team d
  { match_id := m.match_id
    date := d
    season := m.season
    matchday := m.matchday
    home_team := m.home_team
    away_team := m.away_team
    result := matchResult m
    home_goals := m.home_goals
    away_goals := m.away_goals
    home_form_points := home_form.points
    home_form_goals_scored := home_form.goals_scored
    home_form_goals_conceded := home_form.goals_conceded
    home_form_goal_diff := home_form.goal_difference
    home_form_wins := home_form.wins
    home_form_draws := home_form.draws
    home_form_losses := home_form.losses
    away_form_points := away_form.points
    away_form_goals_scored := away_form.goals_scored
    away_form_goals_conceded := away_form.goals_conceded
    away_form_goal_diff := away_form.goal_difference
    away_form_wins := away_form.wins
    away_form_draws := away_form.draws
    away_form_losses := away_form.losses
    home_home_form_points := home_home_form.points
    home_home_form_goals_scored := home_home_form.goals_scored
    home_home_form_goals_conceded := home_home_form.goals_conceded
    away_away_form_points := away_away_form.points
    away_away_form_goals_scored := away_away_form.goals_scored
    away_away_form_goals_conceded := away_away_form.goals_conceded
    home_position := home_position.position
    away_position := away_position.position
    home_points := home_position.points
    away_points := away_position.points
    position_difference := home_position.position - away_position.position
    points_difference := home_position.points - away_position.points
    h2h_home_wins := h2h.team1_wins
    h2h_away_wins := h2h.team2_wins
    h2h_draws := h2h.draws
    h2h_home_goals := h2h.team1_goals
    h2h_away_goals := h2h.team2_goals
    home_rest_days := home_rest
    away_rest_days := away_rest
    rest_difference := home_rest - away_rest
    form_points_difference := home_form.points - away_form.points
    form_goal_diff_difference :=
      home_form.goal_difference - away_form.goal_difference
    home_advantage := 1 }

/-- `LaLigaDatasetBuilder.build_features(df)`: one pass over the DataFrame
rows, skipping the first 50 rows (`if idx < 50: continue`) and emitting one
feature row per remaining match. -/
def build_features (df : List Match) : List FeatureRow :=
  ((df.enum).filter (fun p => 50 ≤ p.1)).map (fun p => featureRow df p.2)

/-- The `MatchData` record stored by `efficient_data_storage.py` (dates are
kept as ISO `TEXT`, so they are modeled as strings here). -/
structure MatchData where
  season : Int
  matchday : Int
  date : String
  home_team : String
  away_team : String
  home_goals : Int
  away_goals : Int
  result : String
  url_source : String
  scraped_at : String
deriving DecidableEq, Repr

/-- The columns of the `UNIQUE(season, matchday, home_team, away_team)`
constraint of the `matches` table. -/
def matchKey (m : MatchData) : Int × Int × String × String :=
  (m.season, m.matchday, m.home_team, m.away_team)

/-- `EfficientDataStorage.add_match`: an `INSERT OR REPLACE` deletes any
row conflicting on the unique key and appends the new row; the method
returns `True` (it returns `False` only when SQLite itself errors, which
the pure model has no counterpart for). The ledger is modeled as the list
of rows in rowid order. -/
def add_match (db : List MatchData) (m : MatchData) :
    List MatchData × Bool :=
  (db.filter (fun x => !(decide (matchKey x = matchKey m))) ++ [m], true)

/-- Padding dates for the warm-up prefix: day `i` of year 1, folded into
months of 28 days so every date is a valid calendar date. -/
def dateOf (i : Int) : Date :=
  { year := 1, month := 1 + (i - 1) / 28, day := 1 + (i - 1) % 28 }

/-- One warm-up match (team 1 beats team 2 at home, 1-0, season 2020). -/
def paddingMatch (i : Int) : Match :=
  { match_id := i, season := 2020, matchday := i, date := dateOf i
    home_team := 1, away_team := 2, home_goals := 1, away_goals := 0 }

/-- The match whose feature record is inspected in the leakage scenario. -/
def mC1 : Match :=
  { match_id := 51, season := 2020, matchday := 51, date := dateOf 51
    home_team := 1, away_team := 2, home_goals := 2, away_goals := 0 }

/-- A match injected at the same date as `mC1` but carrying another season
identifier. -/
def injC1 : Match :=
  { match_id := 99, season := 1999, matchday := 99, date := dateOf 51
    home_team := 1, away_team := 2, home_goals := 0, away_goals := 0 }

/-- 50 warm-up matches followed by `mC1`. -/
def df_c1 : List Match :=
  ((List.range 50).map (fun i => paddingMatch ((i : Int) + 1))) ++ [mC1]

/-- The same ledger with `injC1` appended. -/
def df_c1x : List Match := df_c1 ++ [injC1]

/-- Two matches leaving teams 5 and 3 with identical points, goal
difference and goals scored. -/
def df_c2 : List Match :=
  [⟨1, 2020, 1, ⟨2020, 8, 15⟩, 5, 3, 1, 0⟩,
   ⟨2, 2020, 2, ⟨2020, 8, 22⟩, 3, 5, 1, 0⟩]

/-- Evaluation date for the standings scenarios. -/
def d_c2 : Date := ⟨2020, 8, 29⟩

/-- The two-match ledger of the form scenario of the specification. -/
def df_c4 : List Match :=
  [⟨1, 2020, 1, ⟨2020, 8, 15⟩, 1, 2, 3, 1⟩,
   ⟨2, 2020, 2, ⟨2020, 8, 22⟩, 3, 1, 0, 0⟩]

/-- A stored match dated 2023-08-20. -/
def mLate : MatchData :=
  ⟨2023, 2, "2023-08-20", "Girona", "Sevilla", 1, 0, "H",
   "https://example.com", "2023-08-20T22:00:00"⟩

/-- A match dated 2023-08-12, earlier than `mLate`. -/
def mEarly : MatchData :=
  ⟨2023, 1, "2023-08-12", "Real Madrid", "Barcelona", 2, 1, "H",
   "https://example.com", "2023-08-21T09:00:00"⟩

/-- A stored match for the idempotence scenario. -/
def m1C8 : MatchData :=
  ⟨2023, 1, "2023-08-12", "Real Madrid", "Barcelona", 2, 1, "H",
   "https://example.com", "2023-08-13T09:00:00"⟩

/-- Same season, home team, away team and date as `m1C8`, but another
matchday. -/
def m2C8 : MatchData :=
  ⟨2023, 2, "2023-08-12", "Real Madrid", "Barcelona", 2, 1, "H",
   "https://example.com", "2023-08-14T09:00:00"⟩

theorem before_eq_false_of_ge {d : Date} {e : Match}
    (h : d.toOrdinal ≤ e.date.toOrdinal) : e.date.before d = false := by
  simp only [Date.before, decide_eq_false_iff_not, not_lt]
  exact h

theorem filter_future_append (df extra : List Match) (p : Match → Bool)
    (h : ∀ e ∈ extra, p e = false) :
    (df ++ extra).filter p = df.filter p := by
  rw [List.filter_append]
  have hnil : extra.filter p = [] := by
    rw [List.filter_eq_nil_iff]
    intro a ha
    simp [h a ha]
  rw [hnil, List.append_nil]

theorem teamMatchesBefore_append_future (df extra : List Match) (team : Int)
    (d : Date) (n : Nat) (h : ∀ e ∈ extra, d.toOrdinal ≤ e.date.toOrdinal) :
    teamMatchesBefore (df ++ extra) team d n = teamMatchesBefore df team d n := by
  unfold teamMatchesBefore
  rw [filter_future_append]
  intro e he
  rw [before_eq_false_of_ge (h e he), Bool.and_false]

theorem h2hMatches_append_future (df extra : List Match) (t1 t2 : Int)
    (d : Date) (n : Nat) (h : ∀ e ∈ extra, d.toOrdinal ≤ e.date.toOrdinal) :
    h2hMatches (df ++ extra) t1 t2 d n = h2hMatches df t1 t2 d n := by
  unfold h2hMatches
  rw [filter_future_append]
  intro e he
  unfold h2hPred
  rw [before_eq_false_of_ge (h e he), Bool.and_false]

theorem calculate_team_form_append_future (df extra : List Match)
    (team : Int) (d : Date) (n : Nat)
    (h : ∀ e ∈ extra, d.toOrdinal ≤ e.date.toOrdinal) :
    calculate_team_form (df ++ extra) team d n =
      calculate_team_form df team d n := by
  unfold calculate_team_form
  rw [teamMatchesBefore_append_future df extra team d n h]

theorem calculate_rest_days_append_future (df extra : List Match)
    (team : Int) (d : Date)
    (h : ∀ e ∈ extra, d.toOrdinal ≤ e.date.toOrdinal) :
    calculate_rest_days (df ++ extra) team d = calculate_rest_days df team d := by
  unfold calculate_rest_days
  rw [filter_future_append]
  intro e he
  rw [before_eq_false_of_ge (h e he), Bool.and_false]

theorem calculate_momentum_append_future (df extra : List Match)
    (team : Int) (d : Date) (n : Nat)
    (h : ∀ e ∈ extra, d.toOrdinal ≤ e.date.toOrdinal) :
    calculate_momentum (df ++ extra) team d n = calculate_momentum df team d n := by
  unfold calculate_momentum
  rw [teamMatchesBefore_append_future df extra team d n h]

theorem calculate_head_to_head_append_future (df extra : List Match)
    (t1 t2 : Int) (d : Date) (n : Nat)
    (h : ∀ e ∈ extra, d.toOrdinal ≤ e.date.toOrdinal) :
    calculate_head_to_head (df ++ extra) t1 t2 d n =
      calculate_head_to_head df t1 t2 d n := by
  unfold calculate_head_to_head
  rw [h2hMatches_append_future df extra t1 t2 d n h]

theorem mkTableRow_append_future (df extra : List Match) (d : Date) (t : Int)
    (h : ∀ e ∈ extra, d.toOrdinal ≤ e.date.toOrdinal) :
    mkTableRow (df ++ extra) d t = mkTableRow df d t := by
  unfold mkTableRow
  rw [calculate_team_form_append_future df extra t d 100 h]

theorem league_table_append_future (df extra : List Match) (d : Date)
    (ts : List Int) (h : ∀ e ∈ extra, d.toOrdinal ≤ e.date.toOrdinal) :
    league_table (df ++ extra) d ts = league_table df d ts := by
  unfold league_table
  congr 1
  exact List.map_congr_left (fun t _ => mkTableRow_append_future df extra d t h)

theorem league_position_core_append_future (df extra : List Match) (d : Date)
    (ts : List Int) (team : Int)
    (h : ∀ e ∈ extra, d.toOrdinal ≤ e.date.toOrdinal) :
    league_position_core (df ++ extra) d ts team =
      league_position_core df d ts team := by
  unfold league_position_core
  rw [league_table_append_future df extra d ts h]

theorem season_matches_fb_append_future (df extra : List Match) (d : Date)
    (h : ∀ e ∈ extra, d.toOrdinal ≤ e.date.toOrdinal) :
    season_matches_fb (df ++ extra) d = season_matches_fb df d := by
  unfold season_matches_fb
  rw [filter_future_append]
  intro e he
  rw [before_eq_false_of_ge (h e he), Bool.false_and]

theorem calculate_league_position_append_future (df extra : List Match)
    (team : Int) (d : Date)
    (h : ∀ e ∈ extra, d.toOrdinal ≤ e.date.toOrdinal) :
    calculate_league_position (df ++ extra) team d =
      calculate_league_position df team d := by
  by_cases hsm : (season_matches_fb df d).isEmpty
  · simp [calculate_league_position, season_matches_fb_append_future df extra d h, hsm]
  · simp [calculate_league_position, season_matches_fb_append_future df extra d h,
      hsm, league_position_core_append_future df extra d
        (seasonTeams (season_matches_fb df d)) team h]

theorem teamMatchesBefore_eq_nil (df : List Match) (team : Int) (d : Date)
    (n : Nat)
    (h : ∀ m ∈ df, playedBy team m = true → ¬ m.date.toOrdinal < d.toOrdinal) :
    teamMatchesBefore df team d n = [] := by
  unfold teamMatchesBefore
  rw [List.filter_eq_nil_iff.mpr]
  · simp [sortDescBy]
  · intro m hm
    simp only [Bool.and_eq_true, not_and]
    intro hp hb
    exact h m hm hp (by simpa [Date.before] using hb)

theorem mem_insertDescBy {α : Type} (lt : α → α → Bool) (x a : α)
    (l : List α) : a ∈ insertDescBy lt x l ↔ a = x ∨ a ∈ l := by
  induction l with
  | nil => simp [insertDescBy]
  | cons y ys ih =>
    simp only [insertDescBy]
    split
    · simp only [List.mem_cons, ih]
      tauto
    · simp [List.mem_cons]

theorem insertDescBy_perm {α : Type} (lt : α → α → Bool) (x : α)
    (l : List α) : List.Perm (insertDescBy lt x l) (x :: l) := by
  induction l with
  | nil => exact List.Perm.refl _
  | cons y ys ih =>
    simp only [insertDescBy]
    split
    · exact (ih.cons y).trans (List.Perm.swap x y ys)
    · exact List.Perm.refl _

theorem sortDescBy_perm {α : Type} (lt : α → α → Bool) (l : List α) :
    List.Perm (sortDescBy lt l) l := by
  induction l with
  | nil => exact List.Perm.refl _
  | cons x xs ih =>
    exact (insertDescBy_perm lt x (sortDescBy lt xs)).trans (ih.cons x)

theorem mem_sortDescBy {α : Type} (lt : α → α → Bool) (a : α) (l : List α) :
    a ∈ sortDescBy lt l ↔ a ∈ l :=
  (sortDescBy_perm lt l).mem_iff

theorem sublist_insertDescBy {α : Type} (lt : α → α → Bool) (x : α)
    (l : List α) : List.Sublist l (insertDescBy lt x l) := by
  induction l with
  | nil => simp
  | cons y ys ih =>
    simp only [insertDescBy]
    split
    · exact ih.cons₂ y
    · exact (List.Sublist.refl _).cons x

theorem pair_sublist_insertDescBy {α : Type} (lt : α → α → Bool) {x b : α}
    {l : List α} (hb : b ∈ l) (hlt : lt x b = false) :
    List.Sublist [x, b] (insertDescBy lt x l) := by
  induction l with
  | nil => cases hb
  | cons y ys ih =>
    simp only [insertDescBy]
    split
    · rename_i hy
      have hyb : y ≠ b := by
        intro he
        rw [he, hlt] at hy
        cases hy
      have hb2 : b ∈ ys := by
        rcases List.mem_cons.mp hb with h | h
        · exact absurd h.symm hyb
        · exact h
      exact (ih hb2).cons y
    · exact (List.singleton_sublist.mpr hb).cons₂ x

theorem pair_sublist_sortDescBy {α : Type} (lt : α → α → Bool) {a b : α}
    {l : List α} (h : List.Sublist [a, b] l) (hlt : lt a b = false) :
    List.Sublist [a, b] (sortDescBy lt l) := by
  induction l with
  | nil => cases h
  | cons y ys ih =>
    cases h with
    | cons _ h' =>
      exact (ih h').trans (sublist_insertDescBy lt y (sortDescBy lt ys))
    | cons₂ _ h' =>
      have hb : b ∈ sortDescBy lt ys :=
        (mem_sortDescBy lt b ys).mpr (List.singleton_sublist.mp h')
      exact pair_sublist_insertDescBy lt hb hlt

theorem matchDateLt_eq_true {a b : Match} :
    matchDateLt a b = true ↔ a.date.toOrdinal < b.date.toOrdinal := by
  simp [matchDateLt, Date.before]

theorem sortDescBy_head_max (l : List Match) (h : l ≠ []) :
    ∃ x, (sortDescBy matchDateLt l).head? = some x ∧ x ∈ l ∧
      ∀ y ∈ l, y.date.toOrdinal ≤ x.date.toOrdinal := by
  induction l with
  | nil => exact absurd rfl h
  | cons a rest ih =>
    cases rest with
    | nil =>
      refine ⟨a, by simp [sortDescBy, insertDescBy], by simp, ?_⟩
      intro y hy
      rcases List.mem_singleton.mp hy with rfl
      exact le_refl _
    | cons b bs =>
      obtain ⟨x, hx1, hx2, hx3⟩ := ih (by simp)
      obtain ⟨t, ht⟩ : ∃ t, sortDescBy matchDateLt (b :: bs) = x :: t := by
        cases hs : sortDescBy matchDateLt (b :: bs) with
        | nil => rw [hs] at hx1; cases hx1
        | cons c cs =>
          rw [hs] at hx1
          simp only [List.head?_cons, Option.some.injEq] at hx1
          exact ⟨cs, by rw [hx1]⟩
      show ∃ x', (insertDescBy matchDateLt a
          (sortDescBy matchDateLt (b :: bs))).head? = some x' ∧ _
      rw [ht]
      simp only [insertDescBy]
      split
      · rename_i hless
        refine ⟨x, by simp, List.mem_cons_of_mem a hx2, ?_⟩
        intro y hy
        rcases List.mem_cons.mp hy with rfl | hy2
        · exact le_of_lt (matchDateLt_eq_true.mp hless)
        · exact hx3 y hy2
      · rename_i hge
        have hxa : x.date.toOrdinal ≤ a.date.toOrdinal := by
          by_contra hcon
          exact hge (matchDateLt_eq_true.mpr (lt_of_not_le hcon))
        refine ⟨a, by simp, by simp, ?_⟩
        intro y hy
        rcases List.mem_cons.mp hy with rfl | hy2
        · exact le_refl _
        · exact le_trans (hx3 y hy2) hxa

theorem findTeamPos_eq_none {team : Int} {l : List TableRow}
    (h : ∀ r ∈ l, r.team ≠ team) : findTeamPos team l = none := by
  induction l with
  | nil => rfl
  | cons r rs ih =>
    simp only [findTeamPos]
    rw [if_neg (h r (List.mem_cons_self r rs))]
    rw [ih (fun r' hr' => h r' (List.mem_cons_of_mem r hr'))]
    rfl

theorem findTeamPos_mem {b : TableRow} {l : List TableRow} (hb : b ∈ l)
    (hnd : (l.map TableRow.team).Nodup) :
    ∃ j, findTeamPos b.team l = some (j, b) ∧ 1 ≤ j := by
  induction l with
  | nil => cases hb
  | cons r rs ih =>
    simp only [List.map_cons, List.nodup_cons] at hnd
    rcases List.mem_cons.mp hb with rfl | hb2
    · exact ⟨1, by simp [findTeamPos], le_refl _⟩
    · have hne : r.team ≠ b.team := by
        intro he
        exact hnd.1 (he ▸ List.mem_map.mpr ⟨b, hb2, rfl⟩)
      obtain ⟨j, hj, hj1⟩ := ih hb2 hnd.2
      refine ⟨j + 1, ?_, by omega⟩
      simp only [findTeamPos, if_neg hne, hj]
      rfl

theorem findTeamPos_pair {a b : TableRow} {l : List TableRow}
    (h : List.Sublist [a, b] l) (hnd : (l.map TableRow.team).Nodup) :
    ∃ i j, findTeamPos a.team l = some (i, a) ∧
      findTeamPos b.team l = some (j, b) ∧ i < j := by
  induction l with
  | nil => cases h
  | cons r rs ih =>
    simp only [List.map_cons, List.nodup_cons] at hnd
    cases h with
    | cons _ h' =>
      have ha : a ∈ rs := h'.subset (by simp)
      have hb : b ∈ rs := h'.subset (by simp)
      have hna : r.team ≠ a.team := by
        intro he
        exact hnd.1 (he ▸ List.mem_map.mpr ⟨a, ha, rfl⟩)
      have hnb : r.team ≠ b.team := by
        intro he
        exact hnd.1 (he ▸ List.mem_map.mpr ⟨b, hb, rfl⟩)
      obtain ⟨i, j, hi, hj, hij⟩ := ih h' hnd.2
      refine ⟨i + 1, j + 1, ?_, ?_, by omega⟩
      · simp only [findTeamPos, if_neg hna, hi]
        rfl
      · simp only [findTeamPos, if_neg hnb, hj]
        rfl
    | cons₂ _ h' =>
      have hb : b ∈ rs := List.singleton_sublist.mp h'
      have hne : a.team ≠ b.team := by
        intro he
        exact hnd.1 (he ▸ List.mem_map.mpr ⟨b, hb, rfl⟩)
      obtain ⟨j, hj, hj1⟩ := findTeamPos_mem hb hnd.2
      refine ⟨1, j + 1, by simp [findTeamPos], ?_, by omega⟩
      simp only [findTeamPos, if_neg hne, hj]
      rfl

theorem mem_appearanceOrder_aux (l acc : List Int) (x : Int) :
    x ∈ l.foldl (fun acc y => if y ∈ acc then acc else acc ++ [y]) acc ↔
      x ∈ acc ∨ x ∈ l := by
  induction l generalizing acc with
  | nil => simp
  | cons y ys ih =>
    simp only [List.foldl_cons]
    rw [ih]
    by_cases h : y ∈ acc
    · rw [if_pos h, List.mem_cons]
      constructor
      · tauto
      · rintro (h2 | h2 | h2)
        · exact Or.inl h2
        · subst h2
          exact Or.inl h
        · exact Or.inr h2
    · rw [if_neg h, List.mem_cons]
      simp only [List.mem_append, List.mem_singleton]
      tauto

theorem mem_appearanceOrder (l : List Int) (x : Int) :
    x ∈ appearanceOrder l ↔ x ∈ l := by
  simpa using mem_appearanceOrder_aux l [] x

theorem formStep_count (team : Int) (acc : FormCounters) (m : Match) :
    (formStep team acc m).wins + (formStep team acc m).draws +
      (formStep team acc m).losses = acc.wins + acc.draws + acc.losses + 1 := by
  unfold formStep
  split_ifs <;> simp <;> omega

theorem formStep_points (team : Int) (acc : FormCounters) (m : Match) :
    (formStep team acc m).points - 3 * (formStep team acc m).wins -
      (formStep team acc m).draws = acc.points - 3 * acc.wins - acc.draws := by
  unfold formStep
  split_ifs <;> simp <;> omega

theorem formCounters_foldl_inv (team : Int) (l : List Match)
    (acc : FormCounters) :
    (l.foldl (formStep team) acc).wins + (l.foldl (formStep team) acc).draws +
        (l.foldl (formStep team) acc).losses =
      acc.wins + acc.draws + acc.losses + l.length ∧
    (l.foldl (formStep team) acc).points -
        3 * (l.foldl (formStep team) acc).wins -
        (l.foldl (formStep team) acc).draws =
      acc.points - 3 * acc.wins - acc.draws := by
  induction l generalizing acc with
  | nil => simp
  | cons m ms ih =>
    simp only [List.foldl_cons, List.length_cons]
    obtain ⟨h1, h2⟩ := ih (formStep team acc m)
    have hs1 := formStep_count team acc m
    have hs2 := formStep_points team acc m
    constructor
    · rw [h1, hs1]
      push_cast
      ring
    · rw [h2, hs2]

theorem h2hStep_count (t1 : Int) (acc : H2HCounters) (m : Match) :
    (h2hStep t1 acc m).team1_wins + (h2hStep t1 acc m).team2_wins +
      (h2hStep t1 acc m).draws =
      acc.team1_wins + acc.team2_wins + acc.draws + 1 := by
  unfold h2hStep
  split_ifs <;> simp <;> omega

theorem h2hCounters_foldl_count (t1 : Int) (l : List Match)
    (acc : H2HCounters) :
    (l.foldl (h2hStep t1) acc).team1_wins +
        (l.foldl (h2hStep t1) acc).team2_wins +
        (l.foldl (h2hStep t1) acc).draws =
      acc.team1_wins + acc.team2_wins + acc.draws + l.length := by
  induction l generalizing acc with
  | nil => simp
  | cons m ms ih =>
    simp only [List.foldl_cons, List.length_cons]
    rw [ih (h2hStep t1 acc m), h2hStep_count t1 acc m]
    push_cast
    ring

/-- Mirror of a head-to-head accumulator: exchange the two perspectives. -/
def H2HCounters.swap (c : H2HCounters) : H2HCounters :=
  { team1_wins := c.team2_wins
    team2_wins := c.team1_wins
    draws := c.draws
    team1_goals := c.team2_goals
    team2_goals := c.team1_goals }

theorem h2hStep_swap (t1 t2 : Int) (acc : H2HCounters) (m : Match)
    (hne : m.home_team ≠ m.away_team)
    (hpair : (m.home_team = t1 ∧ m.away_team = t2) ∨
      (m.home_team = t2 ∧ m.away_team = t1)) :
    h2hStep t2 acc.swap m = (h2hStep t1 acc m).swap := by
  cases acc
  rcases hpair with ⟨h1, h2⟩ | ⟨h1, h2⟩
  · have hneq : m.home_team ≠ t2 := by
      intro he
      exact hne (he.trans h2.symm)
    unfold h2hStep H2HCounters.swap
    rw [if_pos h1, if_neg hneq]
    split_ifs <;> first | rfl | (exfalso; omega)
  · have hneq : m.home_team ≠ t1 := by
      intro he
      exact hne (he.trans h2.symm)
    unfold h2hStep H2HCounters.swap
    rw [if_pos h1, if_neg hneq]
    split_ifs <;> first | rfl | (exfalso; omega)

theorem h2hCounters_foldl_swap (t1 t2 : Int) (l : List Match)
    (acc : H2HCounters)
    (hne : ∀ m ∈ l, m.home_team ≠ m.away_team)
    (hpair : ∀ m ∈ l, (m.home_team = t1 ∧ m.away_team = t2) ∨
      (m.home_team = t2 ∧ m.away_team = t1)) :
    l.foldl (h2hStep t2) acc.swap = (l.foldl (h2hStep t1) acc).swap := by
  induction l generalizing acc with
  | nil => rfl
  | cons m ms ih =>
    simp only [List.foldl_cons]
    rw [h2hStep_swap t1 t2 acc m (hne m (List.mem_cons_self m ms))
      (hpair m (List.mem_cons_self m ms))]
    exact ih (h2hStep t1 acc m)
      (fun x hx => hne x (List.mem_cons_of_mem m hx))
      (fun x hx => hpair x (List.mem_cons_of_mem m hx))

theorem h2hPred_comm (t1 t2 : Int) (d : Date) (m : Match) :
    h2hPred t2 t1 d m = h2hPred t1 t2 d m := by
  unfold h2hPred
  rw [Bool.or_comm]

theorem h2hMatches_comm (df : List Match) (t1 t2 : Int) (d : Date) (n : Nat) :
    h2hMatches df t2 t1 d n = h2hMatches df t1 t2 d n := by
  unfold h2hMatches
  rw [List.filter_congr (fun m _ => h2hPred_comm t1 t2 d m)]

theorem mem_h2hMatches {df : List Match} {t1 t2 : Int} {d : Date} {n : Nat}
    {m : Match} (hm : m ∈ h2hMatches df t1 t2 d n) :
    m ∈ df ∧ h2hPred t1 t2 d m = true := by
  unfold h2hMatches at hm
  have h3 := List.take_subset n _ hm
  have h4 := (mem_sortDescBy matchDateLt m _).mp h3
  exact ⟨(List.mem_filter.mp h4).1, (List.mem_filter.mp h4).2⟩

theorem mkTableRow_team (df : List Match) (d : Date) (t : Int) :
    (mkTableRow df d t).team = t := rfl

theorem mem_league_table {df : List Match} {d : Date} {ts : List Int}
    {r : TableRow} (hr : r ∈ league_table df d ts) : r.team ∈ ts := by
  unfold league_table at hr
  have h1 := (mem_sortDescBy rowKeyLt r _).mp hr
  obtain ⟨t, ht, rfl⟩ := List.mem_map.mp h1
  rw [mkTableRow_team]
  exact ht

theorem league_table_map_team_perm (df : List Match) (d : Date)
    (ts : List Int) :
    List.Perm ((league_table df d ts).map TableRow.team) ts := by
  unfold league_table
  have h2 := (sortDescBy_perm rowKeyLt (ts.map (mkTableRow df d))).map
    TableRow.team
  rw [List.map_map] at h2
  have h3 : ts.map (TableRow.team ∘ mkTableRow df d) = ts := by
    rw [show (TableRow.team ∘ mkTableRow df d) = id from
      funext (fun t => mkTableRow_team df d t), List.map_id]
  rw [h3] at h2
  exact h2

theorem add_match_perm (db : List MatchData) (m : MatchData)
    (hnd : (db.map matchKey).Nodup) (hm : m ∈ db) :
    List.Perm (add_match db m).1 db := by
  induction db with
  | nil => cases hm
  | cons a rest ih =>
    simp only [List.map_cons, List.nodup_cons] at hnd
    by_cases hk : matchKey a = matchKey m
    · have hma : m = a := by
        rcases List.mem_cons.mp hm with rfl | hm2
        · rfl
        · exact absurd (hk ▸ List.mem_map.mpr ⟨m, hm2, rfl⟩) hnd.1
      subst hma
      unfold add_match
      simp only [List.filter_cons]
      rw [if_neg (by simp)]
      have hrest : rest.filter
          (fun x => !(decide (matchKey x = matchKey m))) = rest := by
        rw [List.filter_eq_self]
        intro x hx
        simp only [Bool.not_eq_true', decide_eq_false_iff_not]
        intro he
        exact hnd.1 (he ▸ List.mem_map.mpr ⟨x, hx, rfl⟩)
      rw [hrest]
      exact List.perm_append_singleton m rest
    · have hm2 : m ∈ rest := by
        rcases List.mem_cons.mp hm with rfl | h2
        · exact absurd rfl hk
        · exact h2
      unfold add_match
      simp only [List.filter_cons]
      rw [if_pos (by simp [hk])]
      rw [List.cons_append]
      exact (ih hnd.2 hm2).cons a

theorem mem_seasonTeams {sm : List Match} {t : Int} (ht : t ∈ seasonTeams sm) :
    ∃ m ∈ sm, m.home_team = t ∨ m.away_team = t := by
  unfold seasonTeams at ht
  rw [mem_appearanceOrder] at ht
  rcases List.mem_append.mp ht with h | h
  · obtain ⟨m, hm, he⟩ := List.mem_map.mp h
    exact ⟨m, hm, Or.inl he⟩
  · obtain ⟨m, hm, he⟩ := List.mem_map.mp h
    exact ⟨m, hm, Or.inr he⟩

/-- C4: with exactly the two ledger matches (season 2020, team 1 beats
team 2 3-1 at home on 2020-08-15) and (season 2020, team 3 vs team 1 0-0 on
2020-08-22), the form of team 1 at 2020-08-29 with window 5 and any venue
is points 4, goals scored 3, goals conceded 1, matches played 2. -/
theorem c4_form_scenario :
    (calculate_team_form df_c4 1 ⟨2020, 8, 29⟩ 5).points = 4 ∧
    (calculate_team_form df_c4 1 ⟨2020, 8, 29⟩ 5).goals_scored = 3 ∧
    (calculate_team_form df_c4 1 ⟨2020, 8, 29⟩ 5).goals_conceded = 1 ∧
    (calculate_team_form df_c4 1 ⟨2020, 8, 29⟩ 5).matches_played = 2 := by
  decide

/-- C10: for every ledger, team, date and window, the form result satisfies
wins + draws + losses = matches_played, matches_played is at most the
window size, and points = 3 * wins + draws; the head-to-head result
satisfies team1_wins + team2_wins + draws = matches_played, again at most
the window size. -/
theorem c10_form_h2h_accounting (df : List Match) (team t1 t2 : Int)
    (d : Date) (nf nh : Nat) :
    (calculate_team_form df team d nf).wins +
        (calculate_team_form df team d nf).draws +
        (calculate_team_form df team d nf).losses =
      (calculate_team_form df team d nf).matches_played ∧
    (calculate_team_form df team d nf).matches_played ≤ (nf : Int) ∧
    (calculate_team_form df team d nf).points =
      3 * (calculate_team_form df team d nf).wins +
        (calculate_team_form df team d nf).draws ∧
    (calculate_head_to_head df t1 t2 d nh).team1_wins +
        (calculate_head_to_head df t1 t2 d nh).team2_wins +
        (calculate_head_to_head df t1 t2 d nh).draws =
      (calculate_head_to_head df t1 t2 d nh).matches_played ∧
    (calculate_head_to_head df t1 t2 d nh).matches_played ≤ (nh : Int) := by
  have hf := formCounters_foldl_inv team (teamMatchesBefore df team d nf)
    ⟨0, 0, 0, 0, 0, 0⟩
  simp only at hf
  have hlen : (teamMatchesBefore df team d nf).length ≤ nf := by
    unfold teamMatchesBefore
    exact List.length_take_le _ _
  have hh := h2hCounters_foldl_count t1 (h2hMatches df t1 t2 d nh)
    ⟨0, 0, 0, 0, 0⟩
  simp only at hh
  have hhlen : (h2hMatches df t1 t2 d nh).length ≤ nh := by
    unfold h2hMatches
    exact List.length_take_le _ _
  simp only [calculate_team_form, calculate_head_to_head, formCounters,
    h2hCounters]
  refine ⟨?_, ?_, ?_, ?_, ?_⟩ <;> omega

/-- C3: head-to-head is symmetric: for all teams A, B and every date, the
two calls select the identical match list, and the results mirror each
other (team1 counters of one equal team2 counters of the other, with equal
draws and matches played), provided the ledger satisfies the data-model
invariant that no match has home_team = away_team. -/
theorem c3_h2h_symmetry (df : List Match) (A B : Int) (d : Date) (n : Nat)
    (hw : ∀ m ∈ df, m.home_team ≠ m.away_team) :
    h2hMatches df A B d n = h2hMatches df B A d n ∧
    (calculate_head_to_head df A B d n).team1_wins =
      (calculate_head_to_head df B A d n).team2_wins ∧
    (calculate_head_to_head df A B d n).team2_wins =
      (calculate_head_to_head df B A d n).team1_wins ∧
    (calculate_head_to_head df A B d n).team1_goals =
      (calculate_head_to_head df B A d n).team2_goals ∧
    (calculate_head_to_head df A B d n).team2_goals =
      (calculate_head_to_head df B A d n).team1_goals ∧
    (calculate_head_to_head df A B d n).draws =
      (calculate_head_to_head df B A d n).draws ∧
    (calculate_head_to_head df A B d n).matches_played =
      (calculate_head_to_head df B A d n).matches_played := by
  have hlist := h2hMatches_comm df A B d n
  have hpair : ∀ m ∈ h2hMatches df A B d n,
      (m.home_team = A ∧ m.away_team = B) ∨
      (m.home_team = B ∧ m.away_team = A) := by
    intro m hm
    have h2 := (mem_h2hMatches hm).2
    simp only [h2hPred, Bool.and_eq_true, Bool.or_eq_true,
      decide_eq_true_eq] at h2
    exact h2.1
  have hne : ∀ m ∈ h2hMatches df A B d n, m.home_team ≠ m.away_team :=
    fun m hm => hw m (mem_h2hMatches hm).1
  have hc : h2hCounters B (h2hMatches df A B d n) =
      (h2hCounters A (h2hMatches df A B d n)).swap := by
    unfold h2hCounters
    have hz : (⟨0, 0, 0, 0, 0⟩ : H2HCounters) =
        (⟨0, 0, 0, 0, 0⟩ : H2HCounters).swap := rfl
    rw [hz]
    exact h2hCounters_foldl_swap A B _ ⟨0, 0, 0, 0, 0⟩ hne hpair
  refine ⟨hlist.symm, ?_, ?_, ?_, ?_, ?_, ?_⟩ <;>
    simp [calculate_head_to_head, hc, hlist, H2HCounters.swap]

/-- C3 witness: the symmetry theorem applied to the concrete two-match
ledger of the form scenario. -/
theorem c3_h2h_symmetry_witness :
    (∀ m ∈ df_c4, m.home_team ≠ m.away_team) ∧
    (calculate_head_to_head df_c4 1 2 d_c2 10).team1_wins =
      (calculate_head_to_head df_c4 2 1 d_c2 10).team2_wins :=
  ⟨by decide, (c3_h2h_symmetry df_c4 1 2 d_c2 10 (by decide)).2.1⟩

/-- C9: a team with zero qualifying matches strictly before the date gets
a form record whose aggregates and per-match ratios are all zero (ratios
divide by max(count, 1), so no division by zero occurs), and a momentum
record with score 0, wins 0 and no per-match ratio. -/
theorem c9_zero_history (df : List Match) (team : Int) (d : Date)
    (n nm : Nat)
    (h : ∀ m ∈ df, playedBy team m = true → ¬ m.date.toOrdinal < d.toOrdinal) :
    calculate_team_form df team d n =
      { points := 0, goals_scored := 0, goals_conceded := 0,
        goal_difference := 0, wins := 0, draws := 0, losses := 0,
        matches_played := 0, points_per_match := 0, goals_per_match := 0,
        goals_conceded_per_match := 0 } ∧
    calculate_momentum df team d nm =
      { momentum_score := 0, recent_wins := 0, recent_form := "Unknown",
        momentum_per_match := none } := by
  have hnil := teamMatchesBefore_eq_nil df team d n h
  have hnil2 := teamMatchesBefore_eq_nil df team d nm h
  constructor
  · simp [calculate_team_form, hnil, formCounters]
  · simp [calculate_momentum, hnil2]

/-- C9 witness: the zero-history theorem applied at a date before any
ledger match. -/
theorem c9_zero_history_witness :
    calculate_team_form df_c4 1 ⟨2020, 8, 1⟩ 5 =
      { points := 0, goals_scored := 0, goals_conceded := 0,
        goal_difference := 0, wins := 0, draws := 0, losses := 0,
        matches_played := 0, points_per_match := 0, goals_per_match := 0,
        goals_conceded_per_match := 0 } :=
  (c9_zero_history df_c4 1 ⟨2020, 8, 1⟩ 5 3 (by decide)).1

/-- C6: rest days equal the date ordinal minus the ordinal of the most
recent match of the team strictly before the date, and 0 when the team has
no earlier match. -/
theorem c6_rest_days (df : List Match) (team : Int) (d : Date) :
    ((∀ m ∈ df, playedBy team m = true → ¬ m.date.toOrdinal < d.toOrdinal) →
      calculate_rest_days df team d = 0) ∧
    (∀ m1 ∈ df, playedBy team m1 = true →
      m1.date.toOrdinal < d.toOrdinal →
      (∀ m ∈ df, playedBy team m = true → m.date.toOrdinal < d.toOrdinal →
        m.date.toOrdinal ≤ m1.date.toOrdinal) →
      calculate_rest_days df team d = d.toOrdinal - m1.date.toOrdinal) := by
  constructor
  · intro h
    unfold calculate_rest_days
    rw [List.filter_eq_nil_iff.mpr]
    · simp [sortDescBy]
    · intro m hm
      simp only [Bool.and_eq_true, not_and]
      intro hp hb
      exact h m hm hp (by simpa [Date.before] using hb)
  · intro m1 hm1 hp1 hb1 hmax
    unfold calculate_rest_days
    have hm1l : m1 ∈ df.filter (fun m => playedBy team m && m.date.before d) :=
      List.mem_filter.mpr ⟨hm1, by simp [hp1, Date.before, hb1]⟩
    obtain ⟨x, hx1, hx2, hx3⟩ := sortDescBy_head_max _
      (List.ne_nil_of_mem hm1l)
    rw [hx1]
    have hxf := List.mem_filter.mp hx2
    have hxp : playedBy team x = true ∧ x.date.before d = true := by
      simpa [Bool.and_eq_true] using hxf.2
    have hxb : x.date.toOrdinal < d.toOrdinal := by
      simpa [Date.before] using hxp.2
    have h1 : x.date.toOrdinal ≤ m1.date.toOrdinal :=
      hmax x hxf.1 hxp.1 hxb
    have h2 : m1.date.toOrdinal ≤ x.date.toOrdinal := hx3 m1 hm1l
    show d.toOrdinal - x.date.toOrdinal = d.toOrdinal - m1.date.toOrdinal
    omega

/-- C6 witness: team 1 last played on 2020-08-22 before 2020-08-29, so its
rest period is 7 days. -/
theorem c6_rest_days_witness : calculate_rest_days df_c4 1 ⟨2020, 8, 29⟩ = 7 := by
  have h := (c6_rest_days df_c4 1 ⟨2020, 8, 29⟩).2
    ⟨2, 2020, 2, ⟨2020, 8, 22⟩, 3, 1, 0, 0⟩
    (by decide) (by decide) (by decide) (by decide)
  exact h.trans (by decide)

/-- C5 counterexample: at `d_c2` the 2020 season of `df_c2` has exactly two
teams, yet the absent team 4 is assigned the hard-coded position 20 with
zero points, not the team count 2 claimed by the specification. -/
theorem c5_counterexample :
    (seasonTeams (season_matches_fb df_c2 d_c2)).length = 2 ∧
    (calculate_league_position df_c2 4 d_c2).position = 20 ∧
    (calculate_league_position df_c2 4 d_c2).points = 0 ∧
    (calculate_league_position df_c2 4 d_c2).position ≠
      ((seasonTeams (season_matches_fb df_c2 d_c2)).length : Int) := by
  decide

/-- C5 amended: a team that plays in no match of the season selection is
assigned the constant default position 20 with zero points (and zero goal
difference and matches played), regardless of how many teams the season
has seen. -/
theorem c5_absent_team_default (df : List Match) (team : Int) (d : Date)
    (h : ∀ m ∈ season_matches_fb df d,
      m.home_team ≠ team ∧ m.away_team ≠ team) :
    calculate_league_position df team d =
      { position := 20, points := 0, goal_difference := 0,
        matches_played := 0 } := by
  unfold calculate_league_position
  by_cases hsm : (season_matches_fb df d).isEmpty
  · simp [hsm]
  · simp only [hsm, Bool.false_eq_true, if_false]
    unfold league_position_core
    rw [findTeamPos_eq_none]
    intro r hr
    have hmem := mem_league_table hr
    obtain ⟨m, hm, he⟩ := mem_seasonTeams hmem
    intro hteam
    rcases he with he | he
    · exact (h m hm).1 (he.trans hteam)
    · exact (h m hm).2 (he.trans hteam)

/-- C5 witness: the amended default applied to team 4, absent from the
two-team season of `df_c2`. -/
theorem c5_absent_team_default_witness :
    calculate_league_position df_c2 4 d_c2 =
      { position := 20, points := 0, goal_difference := 0,
        matches_played := 0 } :=
  c5_absent_team_default df_c2 4 d_c2 (by decide)

/-- C2 counterexample: in `df_c2`, teams 3 and 5 are tied on points, goal
difference and goals scored at `d_c2`, yet team 5 is ranked above team 3
(identifier order would put 3 first); swapping the team enumeration order
swaps the two positions, so tied positions depend on the set iteration
order rather than being a function of the match data. -/
theorem c2_counterexample :
    (calculate_team_form df_c2 3 d_c2 100).points =
      (calculate_team_form df_c2 5 d_c2 100).points ∧
    (calculate_team_form df_c2 3 d_c2 100).goal_difference =
      (calculate_team_form df_c2 5 d_c2 100).goal_difference ∧
    (calculate_team_form df_c2 3 d_c2 100).goals_scored =
      (calculate_team_form df_c2 5 d_c2 100).goals_scored ∧
    (calculate_league_position df_c2 5 d_c2).position = 1 ∧
    (calculate_league_position df_c2 3 d_c2).position = 2 ∧
    (league_position_core df_c2 d_c2 [3, 5] 3).position = 1 ∧
    (league_position_core df_c2 d_c2 [5, 3] 3).position = 2 := by
  decide

/-- C2 amended: the ranking sorts only by (points desc, goal difference
desc, goals scored desc); the sort is stable, so two teams tied on all
three keys keep the relative order in which the team set was enumerated
(an order the Python code leaves to set iteration), not team-identifier
order. -/
theorem c2_tiebreak_enumeration_order (df : List Match) (d : Date)
    (ts : List Int) (A B : Int) (hnd : ts.Nodup)
    (hsub : List.Sublist [A, B] ts)
    (hp : (calculate_team_form df A d 100).points =
      (calculate_team_form df B d 100).points)
    (hgd : (calculate_team_form df A d 100).goal_difference =
      (calculate_team_form df B d 100).goal_difference)
    (hgs : (calculate_team_form df A d 100).goals_scored =
      (calculate_team_form df B d 100).goals_scored) :
    (league_position_core df d ts A).position <
      (league_position_core df d ts B).position := by
  have hrowsub : List.Sublist [mkTableRow df d A, mkTableRow df d B]
      (ts.map (mkTableRow df d)) := by
    simpa using hsub.map (mkTableRow df d)
  have hlt : rowKeyLt (mkTableRow df d A) (mkTableRow df d B) = false := by
    unfold rowKeyLt mkTableRow
    simp only [decide_eq_false_iff_not]
    rw [hp, hgd, hgs]
    simp [lt_irrefl]
  have htab : List.Sublist [mkTableRow df d A, mkTableRow df d B]
      (league_table df d ts) := by
    unfold league_table
    exact pair_sublist_sortDescBy rowKeyLt hrowsub hlt
  have hndtab : ((league_table df d ts).map TableRow.team).Nodup :=
    ((league_table_map_team_perm df d ts).nodup_iff).mpr hnd
  obtain ⟨i, j, hi, hj, hij⟩ := findTeamPos_pair htab hndtab
  rw [mkTableRow_team] at hi hj
  unfold league_position_core
  rw [hi, hj]
  exact hij

/-- C2 witness: the amended tie-break applied to the tied teams 5 and 3 of
`df_c2` with enumeration order [5, 3]. -/
theorem c2_tiebreak_enumeration_order_witness :
    (league_position_core df_c2 d_c2 [5, 3] 5).position <
      (league_position_core df_c2 d_c2 [5, 3] 3).position :=
  c2_tiebreak_enumeration_order df_c2 d_c2 [5, 3] 5 3 (by decide)
    (List.Sublist.refl _) (by decide) (by decide) (by decide)

/-- C7 counterexample: appending a match dated before the latest stored
date of its season succeeds (returns True) and changes the ledger; no
OutOfOrder rejection exists in the code. -/
theorem c7_counterexample :
    mEarly.date = "2023-08-12" ∧ mLate.date = "2023-08-20" ∧
    Date.before ⟨2023, 8, 12⟩ ⟨2023, 8, 20⟩ = true ∧
    mEarly.season = mLate.season ∧
    (add_match [mLate] mEarly).2 = true ∧
    (add_match [mLate] mEarly).1 = [mLate, mEarly] ∧
    (add_match [mLate] mEarly).1 ≠ [mLate] := by
  refine ⟨rfl, rfl, by decide, by decide, rfl, by decide, by decide⟩

/-- C7 amended: `add_match` never rejects on chronology: it always reports
success and the appended match is stored (an `INSERT OR REPLACE` keyed on
(season, matchday, home team, away team)). -/
theorem c7_append_never_rejects (db : List MatchData) (m : MatchData) :
    (add_match db m).2 = true ∧ m ∈ (add_match db m).1 := by
  constructor
  · rfl
  · unfold add_match
    simp

/-- C8 counterexample: a match identical to a stored one in (season, home
team, away team, date) but with another matchday is not a no-op: the
ledger grows from 1 to 2 rows, because the deduplication key is
(season, matchday, home team, away team). -/
theorem c8_counterexample :
    m2C8.season = m1C8.season ∧ m2C8.home_team = m1C8.home_team ∧
    m2C8.away_team = m1C8.away_team ∧ m2C8.date = m1C8.date ∧
    ([m1C8] : List MatchData).length = 1 ∧
    (add_match [m1C8] m2C8).1.length = 2 := by
  decide

/-- C8 amended: re-appending a fully identical match (in particular with
the same matchday) leaves the ledger size unchanged and the stored rows a
permutation of the previous ones, so every value computed from the row
multiset is unchanged; identity is keyed on (season, matchday, home team,
away team), not on the date. -/
theorem c8_identical_reappend (db : List MatchData) (m : MatchData)
    (hnd : (db.map matchKey).Nodup) (hm : m ∈ db) :
    (add_match db m).1.length = db.length ∧
    List.Perm (add_match db m).1 db ∧ (add_match db m).2 = true := by
  have hp := add_match_perm db m hnd hm
  exact ⟨hp.length_eq, hp, rfl⟩

/-- C8 witness: re-appending the stored match `m1C8` to the one-row ledger
keeps one row. -/
theorem c8_identical_reappend_witness :
    (add_match [m1C8] m1C8).1.length = ([m1C8] : List MatchData).length :=
  (c8_identical_reappend [m1C8] m1C8 (by decide) (by decide)).1

set_option maxRecDepth 10000 in
/-- C1 counterexample: the dataset-builder assembler leaks: injecting
`injC1`, dated exactly `mC1.date`, changes the feature record emitted for
`mC1` (its league-position features flip from position 1 with 150 points
to the default 20 with 0 points), because the league-position season is
read from the last ledger row dated at or before the match date. -/
theorem c1_counterexample :
    injC1.date = mC1.date ∧ df_c1x = df_c1 ++ [injC1] ∧
    ((build_features df_c1).head?.map
      (fun r => (r.match_id, r.home_position, r.home_points))) =
      some (51, 1, 150) ∧
    ((build_features df_c1x).head?.map
      (fun r => (r.match_id, r.home_position, r.home_points))) =
      some (51, 20, 0) := by
  refine ⟨rfl, rfl, by decide, by decide⟩

/-- C1 amended: every feature computation that filters history with a
strict date < cutoff is unchanged by matches dated at or after the cutoff:
form, head-to-head, rest days, momentum and the feature-builder league
position are invariant under appending such matches (only the dataset
builder season lookup, which uses date <= cutoff, can leak, as the
counterexample shows). -/
theorem c1_strict_cutoff_no_leakage (df extra : List Match)
    (team t2 : Int) (d : Date) (n : Nat)
    (h : ∀ e ∈ extra, d.toOrdinal ≤ e.date.toOrdinal) :
    calculate_team_form (df ++ extra) team d n =
      calculate_team_form df team d n ∧
    calculate_head_to_head (df ++ extra) team t2 d n =
      calculate_head_to_head df team t2 d n ∧
    calculate_rest_days (df ++ extra) team d =
      calculate_rest_days df team d ∧
    calculate_momentum (df ++ extra) team d n =
      calculate_momentum df team d n ∧
    calculate_league_position (df ++ extra) team d =
      calculate_league_position df team d :=
  ⟨calculate_team_form_append_future df extra team d n h,
   calculate_head_to_head_append_future df extra team t2 d n h,
   calculate_rest_days_append_future df extra team d h,
   calculate_momentum_append_future df extra team d n h,
   calculate_league_position_append_future df extra team d h⟩

/-- C1 witness: appending a future match (2020-09-05) to the two-match
ledger leaves the form of team 1 at 2020-08-29 unchanged. -/
theorem c1_strict_cutoff_no_leakage_witness :
    calculate_team_form (df_c4 ++ [⟨9, 2020, 9, ⟨2020, 9, 5⟩, 1, 2, 1, 1⟩])
        1 ⟨2020, 8, 29⟩ 5 =
      calculate_team_form df_c4 1 ⟨2020, 8, 29⟩ 5 :=
  (c1_strict_cutoff_no_leakage df_c4 [⟨9, 2020, 9, ⟨2020, 9, 5⟩, 1, 2, 1, 1⟩]
    1 2 ⟨2020, 8, 29⟩ 5 (by decide)).1
